import Mathlib

/-
Verification of the per-frame movement/physics controller of the FPS scene
(src/fps-3d/src/components/fps/FPSScene.tsx, PlayerRig/useFrame), embedded
shallowly over the reals.  Vector and quaternion helpers mirror the three.js
primitives the code calls (Vector3.normalize, Vector3.cross,
Vector3.applyQuaternion, MathUtils.damp).  The terrain module
(lib/terrain: terrainHeight, clampToArena, ARENA_HALF_SIZE) is not part of
the sources; terrainHeight and ARENA_HALF_SIZE are taken as parameters and
clampToArena is modelled from the spec.
-/

noncomputable section

namespace FPS

/-- 3-component vector over the reals, mirroring three.js Vector3. -/
structure Vec3 where
  x : ℝ
  y : ℝ
  z : ℝ

attribute [ext] Vec3

/-- Quaternion (x, y, z, w), mirroring three.js Quaternion. -/
structure Quat where
  qx : ℝ
  qy : ℝ
  qz : ℝ
  qw : ℝ

/-- The seven keyboard control flags sampled each frame. -/
structure Keys where
  forward : Bool
  backward : Bool
  left : Bool
  right : Bool
  run : Bool
  jump : Bool
  crouch : Bool

/-- The mutable player state owned by PlayerRig: position, velocity, stamina,
grounded flag and jump cooldown (the refs in the source). -/
structure PState where
  pos : Vec3
  vel : Vec3
  stamina : ℝ
  grounded : Bool
  cooldown : ℝ

attribute [ext] PState

/-- The metrics snapshot published to the store via setMetrics. -/
structure Metrics where
  speed : ℝ
  altitude : ℝ
  stamina : ℝ

/-- Everything the frame callback mutates: player state, the camera position it
copies the player position into, and the published metrics store. -/
structure World where
  player : PState
  camera : Vec3
  metrics : Metrics

def vadd (a b : Vec3) : Vec3 := ⟨a.x + b.x, a.y + b.y, a.z + b.z⟩

def vsub (a b : Vec3) : Vec3 := ⟨a.x - b.x, a.y - b.y, a.z - b.z⟩

def vscale (c : ℝ) (v : Vec3) : Vec3 := ⟨c * v.x, c * v.y, c * v.z⟩

/-- three.js Vector3.lengthSq: x*x + y*y + z*z. -/
def lengthSq (v : Vec3) : ℝ := v.x * v.x + v.y * v.y + v.z * v.z

/-- three.js Vector3.length. -/
def vlen (v : Vec3) : ℝ := Real.sqrt (lengthSq v)

/-- three.js Vector3.normalize: divideScalar(length || 1) — a zero vector is
left unchanged rather than divided by zero. -/
def normalize (v : Vec3) : Vec3 :=
  vscale (1 / (if vlen v = 0 then 1 else vlen v)) v

/-- three.js Vector3.cross. -/
def cross (a b : Vec3) : Vec3 :=
  ⟨a.y * b.z - a.z * b.y, a.z * b.x - a.x * b.z, a.x * b.y - a.y * b.x⟩

/-- three.js Vector3.applyQuaternion: t = 2 (qv x v); v + qw t + qv x t. -/
def applyQuaternion (q : Quat) (v : Vec3) : Vec3 :=
  let tx : ℝ := 2 * (q.qy * v.z - q.qz * v.y)
  let ty : ℝ := 2 * (q.qz * v.x - q.qx * v.z)
  let tz : ℝ := 2 * (q.qx * v.y - q.qy * v.x)
  ⟨v.x + q.qw * tx + q.qy * tz - q.qz * ty,
   v.y + q.qw * ty + q.qz * tx - q.qx * tz,
   v.z + q.qw * tz + q.qx * ty - q.qy * tx⟩

/-- three.js MathUtils.damp x y lambda dt = lerp x y (1 - exp (-lambda*dt)). -/
def damp (x y lambda dt : ℝ) : ℝ :=
  x + (y - x) * (1 - Real.exp (-(lambda * dt)))

def playerHeight : ℝ := 1.72

def crouchHeight : ℝ := 1.05

def walkSpeed : ℝ := 9.5

def gravity : ℝ := 32

/-- Modelled from the spec: clampToArena from the missing lib/terrain module,
described as a "standard clamp" with min < max always. -/
def clampToArena (v lo hi : ℝ) : ℝ := max lo (min v hi)

/-- dt = Math.min(delta, 0.05) — the frame-gap clamp at the top of useFrame. -/
def dtClamped (delta : ℝ) : ℝ := min delta 0.05

/-- The spawn-resolve branch: if (!position.lengthSq()) position.set(0,
terrainHeight(0,25) + playerHeight, 25). -/
def resolveSpawn (terrain : ℝ → ℝ → ℝ) (p : Vec3) : Vec3 :=
  if lengthSq p = 0 then ⟨0, terrain 0 25 + playerHeight, 25⟩ else p

/-- The camera forward direction flattened to the horizontal plane, before
normalization: (0,0,-1) rotated by the camera quaternion with y zeroed. -/
def flatFront (q : Quat) : Vec3 :=
  ⟨(applyQuaternion q ⟨0, 0, -1⟩).x, 0, (applyQuaternion q ⟨0, 0, -1⟩).z⟩

/-- frontVector.set(0,0,-1).applyQuaternion(heading).setY(0).normalize(). -/
def frontVector (q : Quat) : Vec3 := normalize (flatFront q)

/-- sideVector.copy(upVector).cross(frontVector).normalize(). -/
def sideVector (q : Quat) : Vec3 := normalize (cross ⟨0, 1, 0⟩ (frontVector q))

/-- The accumulated movement intent vector from the four direction flags. -/
def moveVector (q : Quat) (k : Keys) : Vec3 :=
  let m0 : Vec3 := ⟨0, 0, 0⟩
  let m1 := if k.forward then vadd m0 (frontVector q) else m0
  let m2 := if k.backward then vsub m1 (frontVector q) else m1
  let m3 := if k.left then vsub m2 (sideVector q) else m2
  let m4 := if k.right then vadd m3 (sideVector q) else m3
  m4

/-- isMoving = moveVector.lengthSq() > 0.001. -/
def isMoving (q : Quat) (k : Keys) : Prop := lengthSq (moveVector q k) > 0.001

instance (q : Quat) (k : Keys) : Decidable (isMoving q k) := by
  unfold isMoving; infer_instance

/-- The movement vector, normalized only when there is movement intent. -/
def moveDir (q : Quat) (k : Keys) : Vec3 :=
  if isMoving q k then normalize (moveVector q k) else moveVector q k

/-- canSprint = keys.run && stamina > 5 && !keys.crouch. -/
def canSprint (k : Keys) (st : ℝ) : Prop :=
  k.run = true ∧ st > 5 ∧ k.crouch = false

instance (k : Keys) (st : ℝ) : Decidable (canSprint k st) := by
  unfold canSprint; infer_instance

def crouchFactor (k : Keys) : ℝ := if k.crouch then 0.45 else 1

def sprintFactor (k : Keys) (st : ℝ) : ℝ := if canSprint k st then 1.75 else 1

def targetSpeed (k : Keys) (st : ℝ) : ℝ :=
  walkSpeed * crouchFactor k * sprintFactor k st

/-- The damped horizontal x velocity: rate 8 toward the desired velocity when
moving, rate 5.5 toward 0 when not. -/
def velXAfter (q : Quat) (k : Keys) (delta : ℝ) (w : World) : ℝ :=
  if isMoving q k then
    damp w.player.vel.x ((moveDir q k).x * targetSpeed k w.player.stamina) 8
      (dtClamped delta)
  else damp w.player.vel.x 0 5.5 (dtClamped delta)

/-- The damped horizontal z velocity. -/
def velZAfter (q : Quat) (k : Keys) (delta : ℝ) (w : World) : ℝ :=
  if isMoving q k then
    damp w.player.vel.z ((moveDir q k).z * targetSpeed k w.player.stamina) 8
      (dtClamped delta)
  else damp w.player.vel.z 0 5.5 (dtClamped delta)

/-- The stamina two-branch update: drain 32/s while sprinting and moving
(floored at 0), else regenerate 20/s (capped at 100). -/
def staminaNext (q : Quat) (k : Keys) (st dt : ℝ) : ℝ :=
  if canSprint k st ∧ isMoving q k then max 0 (st - 32 * dt)
  else min 100 (st + 20 * dt)

def staminaAfter (q : Quat) (k : Keys) (delta : ℝ) (w : World) : ℝ :=
  staminaNext q k w.player.stamina (dtClamped delta)

/-- if (cooldown > 0) cooldown -= dt. -/
def cooldownDec (c dt : ℝ) : ℝ := if c > 0 then c - dt else c

/-- This frame's cooldown after the decrement, before the jump branch. -/
def cdDec (delta : ℝ) (w : World) : ℝ :=
  cooldownDec w.player.cooldown (dtClamped delta)

/-- The jump branch condition: keys.jump && isGrounded && cooldown <= 0,
with the cooldown already decremented this frame. -/
def fires (k : Keys) (delta : ℝ) (w : World) : Prop :=
  k.jump = true ∧ w.player.grounded = true ∧ cdDec delta w ≤ 0

instance (k : Keys) (delta : ℝ) (w : World) : Decidable (fires k delta w) := by
  unfold fires; infer_instance

/-- The cooldown at the end of the frame: reset to 0.35 on jump, otherwise the
decremented value. -/
def cooldownAfter (k : Keys) (delta : ℝ) (w : World) : ℝ :=
  if fires k delta w then 0.35 else cdDec delta w

/-- Vertical velocity after the jump branch and the unconditional gravity step
(velocity.y -= gravity * dt), before ground resolution. -/
def velYGrav (k : Keys) (delta : ℝ) (w : World) : ℝ :=
  (if fires k delta w then 12.5 else w.player.vel.y) - gravity * dtClamped delta

/-- The integrated, arena-clamped x coordinate. -/
def posXAfter (terrain : ℝ → ℝ → ℝ) (half : ℝ) (q : Quat) (k : Keys)
    (delta : ℝ) (w : World) : ℝ :=
  clampToArena ((resolveSpawn terrain w.player.pos).x +
    velXAfter q k delta w * dtClamped delta) (-half + 3) (half - 3)

/-- The integrated, arena-clamped z coordinate. -/
def posZAfter (terrain : ℝ → ℝ → ℝ) (half : ℝ) (q : Quat) (k : Keys)
    (delta : ℝ) (w : World) : ℝ :=
  clampToArena ((resolveSpawn terrain w.player.pos).z +
    velZAfter q k delta w * dtClamped delta) (-half + 3) (half - 3)

/-- The integrated y coordinate, before ground resolution. -/
def posYInt (terrain : ℝ → ℝ → ℝ) (k : Keys) (delta : ℝ) (w : World) : ℝ :=
  (resolveSpawn terrain w.player.pos).y + velYGrav k delta w * dtClamped delta

/-- terrainHeight sampled at the clamped planar position. -/
def groundH (terrain : ℝ → ℝ → ℝ) (half : ℝ) (q : Quat) (k : Keys)
    (delta : ℝ) (w : World) : ℝ :=
  terrain (posXAfter terrain half q k delta w) (posZAfter terrain half q k delta w)

/-- The desired eye height above the terrain sample: crouching lowers it. -/
def desiredH (terrain : ℝ → ℝ → ℝ) (half : ℝ) (q : Quat) (k : Keys)
    (delta : ℝ) (w : World) : ℝ :=
  groundH terrain half q k delta w +
    (if k.crouch then crouchHeight else playerHeight)

/-- The ground-resolution test: position.y <= desiredHeight. -/
def onGround (terrain : ℝ → ℝ → ℝ) (half : ℝ) (q : Quat) (k : Keys)
    (delta : ℝ) (w : World) : Prop :=
  posYInt terrain k delta w ≤ desiredH terrain half q k delta w

instance (terrain : ℝ → ℝ → ℝ) (half : ℝ) (q : Quat) (k : Keys) (delta : ℝ)
    (w : World) : Decidable (onGround terrain half q k delta w) := by
  unfold onGround; infer_instance

/-- Final y: damped toward the desired height at rate 18 when on the ground. -/
def posYAfter (terrain : ℝ → ℝ → ℝ) (half : ℝ) (q : Quat) (k : Keys)
    (delta : ℝ) (w : World) : ℝ :=
  if onGround terrain half q k delta w then
    damp (posYInt terrain k delta w) (desiredH terrain half q k delta w) 18
      (dtClamped delta)
  else posYInt terrain k delta w

/-- Final vertical velocity: zeroed by ground resolution when on the ground. -/
def velYAfter (terrain : ℝ → ℝ → ℝ) (half : ℝ) (q : Quat) (k : Keys)
    (delta : ℝ) (w : World) : ℝ :=
  if onGround terrain half q k delta w then 0 else velYGrav k delta w

/-- Final grounded flag, recomputed by ground resolution every frame. -/
def groundedAfter (terrain : ℝ → ℝ → ℝ) (half : ℝ) (q : Quat) (k : Keys)
    (delta : ℝ) (w : World) : Bool :=
  if onGround terrain half q k delta w then true else false

/-- One invocation of the useFrame callback.  terrain is the external
terrainHeight oracle, half the ARENA_HALF_SIZE constant (both live in the
missing lib/terrain module).  cp models controlsRef.current being non-null
(the only guard in the code); locked models the pointer-lock engagement state,
which the callback never reads.  q is the camera quaternion, k the sampled
keys, delta the raw frame time. -/
def frame (terrain : ℝ → ℝ → ℝ) (half : ℝ) (cp locked : Bool) (q : Quat)
    (k : Keys) (delta : ℝ) (w : World) : World :=
  if cp = false then w
  else
    { player :=
        { pos := ⟨posXAfter terrain half q k delta w,
                  posYAfter terrain half q k delta w,
                  posZAfter terrain half q k delta w⟩,
          vel := ⟨velXAfter q k delta w,
                  velYAfter terrain half q k delta w,
                  velZAfter q k delta w⟩,
          stamina := staminaAfter q k delta w,
          grounded := groundedAfter terrain half q k delta w,
          cooldown := cooldownAfter k delta w },
      camera := ⟨posXAfter terrain half q k delta w,
                 posYAfter terrain half q k delta w,
                 posZAfter terrain half q k delta w⟩,
      metrics :=
        { speed := Real.sqrt (velXAfter q k delta w * velXAfter q k delta w +
            velZAfter q k delta w * velZAfter q k delta w),
          altitude := posYAfter terrain half q k delta w -
            groundH terrain half q k delta w,
          stamina := staminaAfter q k delta w } }

/-- One frame's worth of external inputs. -/
structure Step where
  cp : Bool
  locked : Bool
  q : Quat
  keys : Keys
  delta : ℝ

/-- A sequence of frames, folded over the world. -/
def runSteps (terrain : ℝ → ℝ → ℝ) (half : ℝ) (steps : List Step)
    (w : World) : World :=
  steps.foldl (fun a s => frame terrain half s.cp s.locked s.q s.keys s.delta a) w

/-- The state at session start: position ref (0,0,20), zero velocity, stamina
100, not grounded, zero cooldown; Canvas camera at (0,8,18); store metrics
(0,0,100). -/
def initWorld : World :=
  { player := { pos := ⟨0, 0, 20⟩, vel := ⟨0, 0, 0⟩, stamina := 100,
                grounded := false, cooldown := 0 },
    camera := ⟨0, 8, 18⟩,
    metrics := { speed := 0, altitude := 0, stamina := 100 } }

/-- Flat terrain used in concrete instances. -/
def flatT : ℝ → ℝ → ℝ := fun _ _ => 0

/-- The identity camera quaternion. -/
def qId : Quat := ⟨0, 0, 0, 1⟩

/-- No keys pressed. -/
def kNone : Keys := ⟨false, false, false, false, false, false, false⟩

/-- Only the jump key pressed. -/
def kJump : Keys := ⟨false, false, false, false, false, true, false⟩

/-- Only the forward key pressed. -/
def kFwd : Keys := ⟨true, false, false, false, false, false, false⟩

/- ### Basic lemmas about the helpers -/

theorem damp_dt_zero (x y lambda : ℝ) : damp x y lambda 0 = x := by
  simp [damp]

theorem damp_exp_form (x y lambda dt : ℝ) :
    damp x y lambda dt = y + (x - y) * Real.exp (-(lambda * dt)) := by
  have h : Real.exp (-(lambda * dt)) + (1 - Real.exp (-(lambda * dt))) = 1 := by
    ring
  unfold damp
  ring

theorem dtClamped_zero : dtClamped 0 = 0 := by
  unfold dtClamped
  rw [min_eq_left]
  norm_num

theorem dtClamped_nonneg {delta : ℝ} (h : 0 ≤ delta) : 0 ≤ dtClamped delta :=
  le_min h (by norm_num)

theorem dtClamped_le (delta : ℝ) : dtClamped delta ≤ 0.05 := min_le_right _ _

theorem lengthSq_nonneg (v : Vec3) : 0 ≤ lengthSq v := by
  unfold lengthSq
  nlinarith [sq_nonneg v.x, sq_nonneg v.y, sq_nonneg v.z]

theorem vlen_ne_zero {v : Vec3} (h : lengthSq v ≠ 0) : vlen v ≠ 0 := by
  unfold vlen
  rw [ne_eq, Real.sqrt_eq_zero']
  push_neg
  exact lt_of_le_of_ne (lengthSq_nonneg v) (Ne.symm h)

theorem lengthSq_vscale (c : ℝ) (v : Vec3) :
    lengthSq (vscale c v) = c * c * lengthSq v := by
  unfold lengthSq vscale
  ring

theorem lengthSq_normalize {v : Vec3} (h : lengthSq v ≠ 0) :
    lengthSq (normalize v) = 1 := by
  unfold normalize
  rw [if_neg (vlen_ne_zero h), lengthSq_vscale]
  have hv : vlen v * vlen v = lengthSq v := by
    unfold vlen
    exact Real.mul_self_sqrt (lengthSq_nonneg v)
  field_simp
  rw [hv]
  exact div_self h

theorem normalize_y (v : Vec3) : (normalize v).y =
    (1 / (if vlen v = 0 then 1 else vlen v)) * v.y := rfl

theorem normalize_of_lengthSq_one {v : Vec3} (h : lengthSq v = 1) :
    normalize v = v := by
  have hl : vlen v = 1 := by
    unfold vlen
    rw [h, Real.sqrt_one]
  unfold normalize
  rw [hl, if_neg one_ne_zero]
  ext <;> simp [vscale]

/- ### Frame projection lemmas -/

theorem frame_skip (terrain : ℝ → ℝ → ℝ) (half : ℝ) (locked : Bool) (q : Quat)
    (k : Keys) (delta : ℝ) (w : World) :
    frame terrain half false locked q k delta w = w := rfl

theorem frame_run (terrain : ℝ → ℝ → ℝ) (half : ℝ) (locked : Bool) (q : Quat)
    (k : Keys) (delta : ℝ) (w : World) :
    frame terrain half true locked q k delta w =
      { player :=
          { pos := ⟨posXAfter terrain half q k delta w,
                    posYAfter terrain half q k delta w,
                    posZAfter terrain half q k delta w⟩,
            vel := ⟨velXAfter q k delta w,
                    velYAfter terrain half q k delta w,
                    velZAfter q k delta w⟩,
            stamina := staminaAfter q k delta w,
            grounded := groundedAfter terrain half q k delta w,
            cooldown := cooldownAfter k delta w },
        camera := ⟨posXAfter terrain half q k delta w,
                   posYAfter terrain half q k delta w,
                   posZAfter terrain half q k delta w⟩,
        metrics :=
          { speed := Real.sqrt (velXAfter q k delta w * velXAfter q k delta w +
              velZAfter q k delta w * velZAfter q k delta w),
            altitude := posYAfter terrain half q k delta w -
              groundH terrain half q k delta w,
            stamina := staminaAfter q k delta w } } := rfl

theorem cooldownAfter_noJump {k : Keys} (h : k.jump = false) (delta : ℝ)
    (w : World) :
    cooldownAfter k delta w = cooldownDec w.player.cooldown (dtClamped delta) := by
  unfold cooldownAfter
  rw [if_neg]
  · rfl
  · intro hf
    rw [hf.1] at h
    exact Bool.true_eq_false.mp h

theorem moveVector_none (q : Quat) : moveVector q kNone = ⟨0, 0, 0⟩ := rfl

theorem not_isMoving_none (q : Quat) : ¬ isMoving q kNone := by
  unfold isMoving
  rw [moveVector_none]
  unfold lengthSq
  norm_num

theorem velXAfter_dt_zero (q : Quat) (k : Keys) (w : World) :
    velXAfter q k 0 w = w.player.vel.x := by
  unfold velXAfter
  rw [dtClamped_zero]
  split <;> rw [damp_dt_zero]

theorem velZAfter_dt_zero (q : Quat) (k : Keys) (w : World) :
    velZAfter q k 0 w = w.player.vel.z := by
  unfold velZAfter
  rw [dtClamped_zero]
  split <;> rw [damp_dt_zero]

theorem staminaNext_dt_zero (q : Quat) (k : Keys) {st : ℝ} (h0 : 0 ≤ st)
    (h1 : st ≤ 100) : staminaNext q k st 0 = st := by
  unfold staminaNext
  split
  · rw [mul_zero, sub_zero, max_eq_right h0]
  · rw [mul_zero, add_zero, min_eq_right h1]

theorem cooldownDec_dt_zero (c : ℝ) : cooldownDec c 0 = c := by
  unfold cooldownDec
  split <;> ring

/- ### Concrete states for the closed instances -/

/-- A consistent state standing on flat terrain at (0, 1.72, 5): zero velocity,
full stamina, grounded, no pending cooldown. -/
def wStand : World :=
  { player := { pos := ⟨0, 1.72, 5⟩, vel := ⟨0, 0, 0⟩, stamina := 100,
                grounded := true, cooldown := 0 },
    camera := ⟨0, 1.72, 5⟩,
    metrics := { speed := 0, altitude := 0, stamina := 100 } }

/-- The same standing state with stamina half depleted. -/
def wHalf : World :=
  { player := { pos := ⟨0, 1.72, 5⟩, vel := ⟨0, 0, 0⟩, stamina := 50,
                grounded := true, cooldown := 0 },
    camera := ⟨0, 1.72, 5⟩,
    metrics := { speed := 0, altitude := 0, stamina := 50 } }

/- ### Claim C1 -/

/-- Claim C1 (amended): the per-frame update is skipped — every piece of state
left unchanged — exactly when the pointer-lock controls object is absent
(controlsRef.current null); the pointer-lock engagement flag itself is never
read by the callback, so the update result is independent of it. -/
theorem C1_skip_gated_by_controls (terrain : ℝ → ℝ → ℝ) (half : ℝ) (cp : Bool)
    (lockedA lockedB : Bool) (q : Quat) (k : Keys) (delta : ℝ) (w : World) :
    frame terrain half false lockedA q k delta w = w ∧
    frame terrain half cp lockedA q k delta w =
      frame terrain half cp lockedB q k delta w :=
  ⟨rfl, rfl⟩

/-- Claim C1 counterexample: with the controls object mounted but the pointer
not locked, the frame still mutates state — from stamina 50 an update with
delta 0.05 regenerates stamina to 51, so the world is not left unchanged. -/
theorem C1_counterexample :
    frame flatT 100 true false qId kNone 0.05 wHalf ≠ wHalf := by
  intro h
  have h2 := congrArg (fun a => a.player.stamina) h
  simp only [frame_run] at h2
  norm_num [staminaAfter, staminaNext, canSprint, kNone, dtClamped, wHalf] at h2

/- ### Claim C2 -/

/-- Claim C2 (amended): an update with delta = 0 leaves the whole player state
bit-for-bit unchanged provided the prior state is consistent — position away
from the origin sentinel, stamina in [0,100], planar position inside the arena
clamp range, the grounded flag agreeing with the ground test at the current
position and crouch flag, zero vertical velocity when grounded — and the jump
branch does not fire.  (A firing jump branch mutates the cooldown even at
dt = 0, and a negative delta is used as-is, so neither is a no-op in
general.) -/
theorem C2_dt_zero_noop (terrain : ℝ → ℝ → ℝ) (half : ℝ) (cp locked : Bool)
    (q : Quat) (k : Keys) (w : World)
    (hpos : lengthSq w.player.pos ≠ 0)
    (hs0 : 0 ≤ w.player.stamina) (hs1 : w.player.stamina ≤ 100)
    (hx1 : -half + 3 ≤ w.player.pos.x) (hx2 : w.player.pos.x ≤ half - 3)
    (hz1 : -half + 3 ≤ w.player.pos.z) (hz2 : w.player.pos.z ≤ half - 3)
    (hg : w.player.grounded = true ↔
      w.player.pos.y ≤ terrain w.player.pos.x w.player.pos.z +
        (if k.crouch then crouchHeight else playerHeight))
    (hvy : w.player.grounded = true → w.player.vel.y = 0)
    (hnj : ¬ fires k 0 w) :
    (frame terrain half cp locked q k 0 w).player = w.player := by
  cases cp with
  | false => rw [frame_skip]
  | true =>
    have hsp : resolveSpawn terrain w.player.pos = w.player.pos := if_neg hpos
    have hvx : velXAfter q k 0 w = w.player.vel.x := velXAfter_dt_zero q k w
    have hvz : velZAfter q k 0 w = w.player.vel.z := velZAfter_dt_zero q k w
    have hpx : posXAfter terrain half q k 0 w = w.player.pos.x := by
      unfold posXAfter clampToArena
      rw [hsp, dtClamped_zero, mul_zero, add_zero, min_eq_left hx2,
        max_eq_right hx1]
    have hpz : posZAfter terrain half q k 0 w = w.player.pos.z := by
      unfold posZAfter clampToArena
      rw [hsp, dtClamped_zero, mul_zero, add_zero, min_eq_left hz2,
        max_eq_right hz1]
    have hpy : posYInt terrain k 0 w = w.player.pos.y := by
      unfold posYInt
      rw [hsp, dtClamped_zero, mul_zero, add_zero]
    have hdes : desiredH terrain half q k 0 w =
        terrain w.player.pos.x w.player.pos.z +
          (if k.crouch then crouchHeight else playerHeight) := by
      unfold desiredH groundH
      rw [hpx, hpz]
    have hog : onGround terrain half q k 0 w ↔ w.player.grounded = true := by
      unfold onGround
      rw [hpy, hdes]
      exact hg.symm
    have hyfin : posYAfter terrain half q k 0 w = w.player.pos.y := by
      unfold posYAfter
      split
      · rw [dtClamped_zero, damp_dt_zero, hpy]
      · rw [hpy]
    have hvyfin : velYAfter terrain half q k 0 w = w.player.vel.y := by
      unfold velYAfter
      by_cases hON : onGround terrain half q k 0 w
      · rw [if_pos hON]
        exact (hvy (hog.mp hON)).symm
      · rw [if_neg hON]
        unfold velYGrav
        rw [if_neg hnj, dtClamped_zero, mul_zero, sub_zero]
    have hgfin : groundedAfter terrain half q k 0 w = w.player.grounded := by
      unfold groundedAfter
      by_cases hON : onGround terrain half q k 0 w
      · rw [if_pos hON]
        exact (hog.mp hON).symm
      · rw [if_neg hON]
        cases hgb : w.player.grounded with
        | false => rfl
        | true => exact absurd (hog.mpr hgb) hON
    have hstam : staminaAfter q k 0 w = w.player.stamina := by
      unfold staminaAfter
      rw [dtClamped_zero]
      exact staminaNext_dt_zero q k hs0 hs1
    have hcool : cooldownAfter k 0 w = w.player.cooldown := by
      unfold cooldownAfter
      rw [if_neg hnj]
      unfold cdDec
      rw [dtClamped_zero, cooldownDec_dt_zero]
    exact PState.ext (Vec3.ext hpx hyfin hpz) (Vec3.ext hvx hvyfin hvz)
      hstam hgfin hcool

/-- Witness for C2 (amended) at a concrete consistent standing state. -/
theorem C2_dt_zero_noop_witness :
    lengthSq wStand.player.pos ≠ 0 ∧ ¬ fires kNone 0 wStand ∧
    (frame flatT 100 true true qId kNone 0 wStand).player = wStand.player :=
  ⟨by norm_num [wStand, lengthSq], by simp [fires, kNone],
    C2_dt_zero_noop flatT 100 true true qId kNone wStand
      (by norm_num [wStand, lengthSq])
      (by norm_num [wStand]) (by norm_num [wStand])
      (by norm_num [wStand]) (by norm_num [wStand])
      (by norm_num [wStand]) (by norm_num [wStand])
      (by norm_num [wStand, flatT, kNone, playerHeight])
      (fun _ => rfl)
      (by simp [fires, kNone])⟩

/-- Claim C2 counterexample: from a grounded state with no pending cooldown and
the jump key held, an update with delta = 0 is not a no-op — the jump branch
fires and resets the cooldown from 0 to 0.35. -/
theorem C2_counterexample :
    frame flatT 100 true true qId kJump 0 wStand ≠ wStand := by
  intro h
  have h2 := congrArg (fun a => a.player.cooldown) h
  simp only [frame_run] at h2
  have hf : fires kJump 0 wStand := by
    refine ⟨rfl, rfl, ?_⟩
    norm_num [cdDec, cooldownDec, dtClamped, wStand]
  rw [cooldownAfter, if_pos hf] at h2
  norm_num [wStand] at h2

/- ### Claim C3 -/

theorem staminaNext_mem (q : Quat) (k : Keys) {st dt : ℝ} (h0 : 0 ≤ st)
    (h1 : st ≤ 100) (hdt : 0 ≤ dt) :
    0 ≤ staminaNext q k st dt ∧ staminaNext q k st dt ≤ 100 := by
  unfold staminaNext
  split
  · refine ⟨le_max_left 0 _, max_le (by norm_num) ?_⟩
    nlinarith
  · refine ⟨le_min (by norm_num) ?_, min_le_left _ _⟩
    nlinarith

theorem frame_stamina_mem (terrain : ℝ → ℝ → ℝ) (half : ℝ) (cp locked : Bool)
    (q : Quat) (k : Keys) (delta : ℝ) (w : World)
    (h0 : 0 ≤ w.player.stamina) (h1 : w.player.stamina ≤ 100)
    (hd : 0 ≤ delta) :
    0 ≤ (frame terrain half cp locked q k delta w).player.stamina ∧
      (frame terrain half cp locked q k delta w).player.stamina ≤ 100 := by
  cases cp with
  | false => rw [frame_skip]; exact ⟨h0, h1⟩
  | true =>
    simp only [frame_run]
    exact staminaNext_mem q k h0 h1 (dtClamped_nonneg hd)

theorem runSteps_cons (terrain : ℝ → ℝ → ℝ) (half : ℝ) (s : Step)
    (rest : List Step) (w : World) :
    runSteps terrain half (s :: rest) w =
      runSteps terrain half rest
        (frame terrain half s.cp s.locked s.q s.keys s.delta w) := rfl

theorem runSteps_stamina_mem (terrain : ℝ → ℝ → ℝ) (half : ℝ)
    (steps : List Step) :
    ∀ w : World, 0 ≤ w.player.stamina → w.player.stamina ≤ 100 →
      (∀ s ∈ steps, 0 ≤ s.delta) →
      0 ≤ (runSteps terrain half steps w).player.stamina ∧
        (runSteps terrain half steps w).player.stamina ≤ 100 := by
  induction steps with
  | nil => exact fun w h0 h1 _ => ⟨h0, h1⟩
  | cons s rest ih =>
    intro w h0 h1 hd
    rw [runSteps_cons]
    have hs := frame_stamina_mem terrain half s.cp s.locked s.q s.keys s.delta
      w h0 h1 (hd s (by simp))
    exact ih _ hs.1 hs.2 (fun t ht => hd t (by simp [ht]))

/-- Claim C3: along every sequence of frames whose raw elapsed times are
non-negative, starting from the initial stamina of 100, stamina stays within
[0,100]: the sprint drain is floored at 0 and the regeneration capped at 100.
(The bound after every intermediate update follows because the sequence of
steps is universally quantified, so it applies to every prefix.) -/
theorem C3_stamina_bounds (terrain : ℝ → ℝ → ℝ) (half : ℝ)
    (steps : List Step) (w : World)
    (hinit : w.player.stamina = 100)
    (hd : ∀ s ∈ steps, 0 ≤ s.delta) :
    0 ≤ (runSteps terrain half steps w).player.stamina ∧
      (runSteps terrain half steps w).player.stamina ≤ 100 :=
  runSteps_stamina_mem terrain half steps w (by rw [hinit]; norm_num)
    (by rw [hinit]) hd

/-- Witness for C3: a one-frame sequence from the session-initial state. -/
theorem C3_stamina_bounds_witness :
    initWorld.player.stamina = 100 ∧
    0 ≤ (runSteps flatT 100 [⟨true, true, qId, kNone, 0.016⟩]
        initWorld).player.stamina ∧
      (runSteps flatT 100 [⟨true, true, qId, kNone, 0.016⟩]
        initWorld).player.stamina ≤ 100 := by
  refine ⟨rfl, C3_stamina_bounds flatT 100 _ initWorld rfl ?_⟩
  intro s hs
  rw [List.mem_singleton] at hs
  subst hs
  norm_num

/- ### Claim C4 -/

/-- Claim C4 (amended): the jump branch fires exactly when the jump flag is
set, grounded is true and the cooldown is ≤ 0 after this frame's decrement; at
the end of any update in which it fired the cooldown equals the reset constant
0.35; and grounded is false at the end of the update whenever the integrated
vertical position exceeds the desired eye height at the final planar position.
(Ground resolution runs after the jump branch, so when the integrated position
does not exceed that height — e.g. a dt = 0 frame — it re-grounds the player
within the same update, which is the one case the original claim excluded.) -/
theorem C4_jump_gate (terrain : ℝ → ℝ → ℝ) (half : ℝ) (locked : Bool)
    (q : Quat) (k : Keys) (delta : ℝ) (w : World) :
    (fires k delta w ↔ k.jump = true ∧ w.player.grounded = true ∧
      cooldownDec w.player.cooldown (dtClamped delta) ≤ 0) ∧
    (fires k delta w →
      (frame terrain half true locked q k delta w).player.cooldown = 0.35) ∧
    (¬ fires k delta w →
      (frame terrain half true locked q k delta w).player.cooldown =
        cooldownDec w.player.cooldown (dtClamped delta)) ∧
    (fires k delta w →
      desiredH terrain half q k delta w < posYInt terrain k delta w →
      (frame terrain half true locked q k delta w).player.grounded = false) := by
  refine ⟨Iff.rfl, ?_, ?_, ?_⟩
  · intro hf
    simp only [frame_run]
    unfold cooldownAfter
    rw [if_pos hf]
  · intro hnf
    simp only [frame_run]
    unfold cooldownAfter
    rw [if_neg hnf]
    rfl
  · intro _ hlt
    have hno : ¬ onGround terrain half q k delta w := not_le.mpr hlt
    simp only [frame_run]
    unfold groundedAfter
    rw [if_neg hno]

theorem resolveSpawn_wStand :
    resolveSpawn flatT wStand.player.pos = wStand.player.pos := by
  unfold resolveSpawn
  rw [if_neg]
  norm_num [lengthSq, wStand]

/-- Witness for C4: a grounded jump with delta = 0.05 on flat terrain leaves
the avatar airborne with the cooldown reset to 0.35. -/
theorem C4_jump_gate_witness :
    fires kJump 0.05 wStand ∧
    (frame flatT 100 true true qId kJump 0.05 wStand).player.cooldown = 0.35 ∧
    (frame flatT 100 true true qId kJump 0.05 wStand).player.grounded
      = false := by
  have hf : fires kJump 0.05 wStand :=
    ⟨rfl, rfl, by norm_num [cdDec, cooldownDec, dtClamped, wStand]⟩
  have hvy : velYGrav kJump 0.05 wStand = 10.9 := by
    unfold velYGrav
    rw [if_pos hf]
    norm_num [gravity, dtClamped]
  have hyi : posYInt flatT kJump 0.05 wStand = 2.265 := by
    unfold posYInt
    rw [resolveSpawn_wStand, hvy]
    norm_num [wStand, dtClamped]
  have hde : desiredH flatT 100 qId kJump 0.05 wStand = 1.72 := by
    unfold desiredH groundH flatT
    norm_num [kJump, playerHeight]
  have hlt : desiredH flatT 100 qId kJump 0.05 wStand <
      posYInt flatT kJump 0.05 wStand := by
    rw [hde, hyi]
    norm_num
  exact ⟨hf, (C4_jump_gate flatT 100 true qId kJump 0.05 wStand).2.1 hf,
    (C4_jump_gate flatT 100 true qId kJump 0.05 wStand).2.2.2 hf hlt⟩

/-- Claim C4 counterexample: with delta = 0 the jump branch fires (jump held,
grounded, no cooldown) yet ground resolution re-grounds the player within the
same update, so grounded is true — not false — at the end of the update. -/
theorem C4_counterexample :
    fires kJump 0 wStand ∧
    (frame flatT 100 true true qId kJump 0 wStand).player.grounded = true := by
  have hf : fires kJump 0 wStand :=
    ⟨rfl, rfl, by norm_num [cdDec, cooldownDec, dtClamped, wStand]⟩
  refine ⟨hf, ?_⟩
  have hOn : onGround flatT 100 qId kJump 0 wStand := by
    unfold onGround posYInt desiredH groundH
    rw [resolveSpawn_wStand, dtClamped_zero]
    norm_num [flatT, wStand, kJump, playerHeight]
  simp only [frame_run]
  unfold groundedAfter
  rw [if_pos hOn]

/- ### Claim C5 -/

/-- Claim C5: after every executed update the planar position lies within
[-ARENA_HALF_SIZE+3, ARENA_HALF_SIZE-3] (given the clamp range is non-empty,
i.e. 3 ≤ ARENA_HALF_SIZE), and the clamp is a hard stop that modifies position
only: the horizontal output velocity is exactly the damped value, which the
clamp neither reflects nor zeroes. -/
theorem C5_arena_clamp (terrain : ℝ → ℝ → ℝ) (half : ℝ) (locked : Bool)
    (q : Quat) (k : Keys) (delta : ℝ) (w : World) (hh : (3:ℝ) ≤ half) :
    (-half + 3 ≤ (frame terrain half true locked q k delta w).player.pos.x ∧
      (frame terrain half true locked q k delta w).player.pos.x ≤ half - 3) ∧
    (-half + 3 ≤ (frame terrain half true locked q k delta w).player.pos.z ∧
      (frame terrain half true locked q k delta w).player.pos.z ≤ half - 3) ∧
    (frame terrain half true locked q k delta w).player.vel.x =
      velXAfter q k delta w ∧
    (frame terrain half true locked q k delta w).player.vel.z =
      velZAfter q k delta w := by
  have hlh : -half + 3 ≤ half - 3 := by linarith
  simp only [frame_run]
  unfold posXAfter posZAfter clampToArena
  exact ⟨⟨le_max_left _ _, max_le hlh (min_le_right _ _)⟩,
    ⟨le_max_left _ _, max_le hlh (min_le_right _ _)⟩, trivial, trivial⟩

/-- Witness for C5 at ARENA_HALF_SIZE = 100 and a concrete update. -/
theorem C5_arena_clamp_witness :
    (3:ℝ) ≤ 100 ∧
    (-100 + 3 ≤ (frame flatT 100 true true qId kNone 0.016 wStand).player.pos.x ∧
      (frame flatT 100 true true qId kNone 0.016 wStand).player.pos.x
        ≤ 100 - 3) :=
  ⟨by norm_num,
    (C5_arena_clamp flatT 100 true qId kNone 0.016 wStand (by norm_num)).1⟩

/- ### Claim C6 -/

theorem frame_cooldown_noJump (terrain : ℝ → ℝ → ℝ) (half : ℝ) (locked : Bool)
    (q : Quat) {k : Keys} (hk : k.jump = false) (delta : ℝ) (w : World) :
    (frame terrain half true locked q k delta w).player.cooldown =
      cooldownDec w.player.cooldown (dtClamped delta) := by
  simp only [frame_run]
  exact cooldownAfter_noJump hk delta w

theorem frame_cooldown_lb (terrain : ℝ → ℝ → ℝ) (half : ℝ) (cp locked : Bool)
    (q : Quat) (k : Keys) (delta : ℝ) (w : World)
    (h : -0.05 ≤ w.player.cooldown) (hd : 0 ≤ delta) :
    -0.05 ≤ (frame terrain half cp locked q k delta w).player.cooldown := by
  cases cp with
  | false => rwa [frame_skip]
  | true =>
    simp only [frame_run]
    unfold cooldownAfter
    by_cases hf : fires k delta w
    · rw [if_pos hf]
      norm_num
    · rw [if_neg hf]
      unfold cdDec cooldownDec
      by_cases hc : w.player.cooldown > 0
      · rw [if_pos hc]
        have := dtClamped_le delta
        linarith
      · rw [if_neg hc]
        exact h

theorem runSteps_cooldown_lb (terrain : ℝ → ℝ → ℝ) (half : ℝ)
    (steps : List Step) :
    ∀ w : World, -0.05 ≤ w.player.cooldown → (∀ s ∈ steps, 0 ≤ s.delta) →
      -0.05 ≤ (runSteps terrain half steps w).player.cooldown := by
  induction steps with
  | nil => exact fun w h _ => h
  | cons s rest ih =>
    intro w h hd
    rw [runSteps_cons]
    exact ih _ (frame_cooldown_lb terrain half s.cp s.locked s.q s.keys s.delta
      w h (hd s (by simp))) (fun t ht => hd t (by simp [ht]))

/-- Claim C6 (amended): on each executed update the cooldown either resets to
the constant 0.35 (when the jump branch fires), or decreases by the clamped dt
(when it was positive), or is left unchanged (when already ≤ 0 with no jump);
along any sequence of updates with non-negative elapsed times it stays
≥ -0.05 (the dt cap) — but not ≥ 0, because the decrement is not floored and
can step below zero. -/
theorem C6_cooldown (terrain : ℝ → ℝ → ℝ) (half : ℝ) (locked : Bool)
    (q : Quat) (k : Keys) (delta : ℝ) (steps : List Step) (w : World) :
    ((frame terrain half true locked q k delta w).player.cooldown =
      if fires k delta w then 0.35
      else if w.player.cooldown > 0 then
        w.player.cooldown - dtClamped delta
      else w.player.cooldown) ∧
    (-0.05 ≤ w.player.cooldown → (∀ s ∈ steps, 0 ≤ s.delta) →
      -0.05 ≤ (runSteps terrain half steps w).player.cooldown) := by
  constructor
  · simp only [frame_run]
    unfold cooldownAfter cdDec cooldownDec
    rfl
  · exact fun h hd => runSteps_cooldown_lb terrain half steps w h hd

/-- Witness for C6 (amended) on a concrete one-step sequence. -/
theorem C6_cooldown_witness :
    -0.05 ≤ wStand.player.cooldown ∧
    -0.05 ≤ (runSteps flatT 100 [⟨true, true, qId, kNone, 0.05⟩]
        wStand).player.cooldown :=
  ⟨by norm_num [wStand],
    (C6_cooldown flatT 100 true qId kNone 0.05
        [⟨true, true, qId, kNone, 0.05⟩] wStand).2
      (by norm_num [wStand])
      (by
        intro s hs
        rw [List.mem_singleton] at hs
        subst hs
        norm_num)⟩

/-- The 11-frame input sequence of the C6 counterexample: settle onto the
ground, jump, then nine 0.04 s frames with no keys held. -/
def c6Steps : List Step :=
  [⟨true, true, qId, kNone, 0⟩, ⟨true, true, qId, kJump, 0⟩,
   ⟨true, true, qId, kNone, 0.04⟩, ⟨true, true, qId, kNone, 0.04⟩,
   ⟨true, true, qId, kNone, 0.04⟩, ⟨true, true, qId, kNone, 0.04⟩,
   ⟨true, true, qId, kNone, 0.04⟩, ⟨true, true, qId, kNone, 0.04⟩,
   ⟨true, true, qId, kNone, 0.04⟩, ⟨true, true, qId, kNone, 0.04⟩,
   ⟨true, true, qId, kNone, 0.04⟩]

def c6w1 : World := frame flatT 100 true true qId kNone 0 initWorld

def c6w2 : World := frame flatT 100 true true qId kJump 0 c6w1

def c6w3 : World := frame flatT 100 true true qId kNone 0.04 c6w2

def c6w4 : World := frame flatT 100 true true qId kNone 0.04 c6w3

def c6w5 : World := frame flatT 100 true true qId kNone 0.04 c6w4

def c6w6 : World := frame flatT 100 true true qId kNone 0.04 c6w5

def c6w7 : World := frame flatT 100 true true qId kNone 0.04 c6w6

def c6w8 : World := frame flatT 100 true true qId kNone 0.04 c6w7

def c6w9 : World := frame flatT 100 true true qId kNone 0.04 c6w8

def c6w10 : World := frame flatT 100 true true qId kNone 0.04 c6w9

def c6w11 : World := frame flatT 100 true true qId kNone 0.04 c6w10

theorem resolveSpawn_init :
    resolveSpawn flatT initWorld.player.pos = initWorld.player.pos := by
  unfold resolveSpawn
  rw [if_neg]
  norm_num [lengthSq, initWorld]

/-- Claim C6 counterexample: from the session-initial state, the reachable
11-frame sequence c6Steps (all elapsed times ≥ 0: land, jump, then nine
0.04 s frames) drives the cooldown to 0.35 - 9·0.04 = -0.01 < 0, so the
cooldown does not stay ≥ 0. -/
theorem C6_counterexample :
    (∀ s ∈ c6Steps, 0 ≤ s.delta) ∧
    (runSteps flatT 100 c6Steps initWorld).player.cooldown < 0 := by
  constructor
  · intro s hs
    simp only [c6Steps, List.mem_cons, List.not_mem_nil, or_false] at hs
    rcases hs with h|h|h|h|h|h|h|h|h|h|h <;> subst h <;> norm_num
  · have hOn : onGround flatT 100 qId kNone 0 initWorld := by
      unfold onGround posYInt desiredH groundH
      rw [resolveSpawn_init, dtClamped_zero]
      norm_num [flatT, initWorld, kNone, playerHeight]
    have hg1 : c6w1.player.grounded = true := by
      unfold c6w1
      simp only [frame_run]
      unfold groundedAfter
      rw [if_pos hOn]
    have hc1 : c6w1.player.cooldown = 0 := by
      unfold c6w1
      rw [frame_cooldown_noJump flatT 100 true qId rfl 0 initWorld,
        dtClamped_zero, cooldownDec_dt_zero]
      norm_num [initWorld]
    have hf2 : fires kJump 0 c6w1 := by
      refine ⟨rfl, hg1, ?_⟩
      unfold cdDec
      rw [dtClamped_zero, cooldownDec_dt_zero, hc1]
    have hc2 : c6w2.player.cooldown = 0.35 := by
      unfold c6w2
      simp only [frame_run]
      unfold cooldownAfter
      rw [if_pos hf2]
    have hc3 : c6w3.player.cooldown = 0.31 := by
      unfold c6w3
      rw [frame_cooldown_noJump flatT 100 true qId rfl 0.04 c6w2, hc2]
      norm_num [cooldownDec, dtClamped]
    have hc4 : c6w4.player.cooldown = 0.27 := by
      unfold c6w4
      rw [frame_cooldown_noJump flatT 100 true qId rfl 0.04 c6w3, hc3]
      norm_num [cooldownDec, dtClamped]
    have hc5 : c6w5.player.cooldown = 0.23 := by
      unfold c6w5
      rw [frame_cooldown_noJump flatT 100 true qId rfl 0.04 c6w4, hc4]
      norm_num [cooldownDec, dtClamped]
    have hc6 : c6w6.player.cooldown = 0.19 := by
      unfold c6w6
      rw [frame_cooldown_noJump flatT 100 true qId rfl 0.04 c6w5, hc5]
      norm_num [cooldownDec, dtClamped]
    have hc7 : c6w7.player.cooldown = 0.15 := by
      unfold c6w7
      rw [frame_cooldown_noJump flatT 100 true qId rfl 0.04 c6w6, hc6]
      norm_num [cooldownDec, dtClamped]
    have hc8 : c6w8.player.cooldown = 0.11 := by
      unfold c6w8
      rw [frame_cooldown_noJump flatT 100 true qId rfl 0.04 c6w7, hc7]
      norm_num [cooldownDec, dtClamped]
    have hc9 : c6w9.player.cooldown = 0.07 := by
      unfold c6w9
      rw [frame_cooldown_noJump flatT 100 true qId rfl 0.04 c6w8, hc8]
      norm_num [cooldownDec, dtClamped]
    have hc10 : c6w10.player.cooldown = 0.03 := by
      unfold c6w10
      rw [frame_cooldown_noJump flatT 100 true qId rfl 0.04 c6w9, hc9]
      norm_num [cooldownDec, dtClamped]
    have hc11 : c6w11.player.cooldown = -0.01 := by
      unfold c6w11
      rw [frame_cooldown_noJump flatT 100 true qId rfl 0.04 c6w10, hc10]
      norm_num [cooldownDec, dtClamped]
    have hrun : runSteps flatT 100 c6Steps initWorld = c6w11 := rfl
    rw [hrun, hc11]
    norm_num

/- ### Claim C7 -/

/-- An airborne state well above flat terrain, at rest. -/
def wAir : World :=
  { player := { pos := ⟨0, 10, 5⟩, vel := ⟨0, 0, 0⟩, stamina := 100,
                grounded := false, cooldown := 0 },
    camera := ⟨0, 10, 5⟩,
    metrics := { speed := 0, altitude := 0, stamina := 100 } }

/-- Claim C7 (amended): airborne with vertical velocity 0, no jump key, raw
elapsed time 1 s — dt is clamped to 0.05 first, so the vertical velocity after
the gravity step (before ground resolution) is -32 · 0.05 = -1.6, not -32. -/
theorem C7_gravity_clamped (k : Keys) (w : World)
    (hj : k.jump = false) (hvy : w.player.vel.y = 0) :
    velYGrav k 1 w = -1.6 := by
  have hnf : ¬ fires k 1 w := by simp [fires, hj]
  unfold velYGrav
  rw [if_neg hnf, hvy]
  norm_num [gravity, dtClamped]

/-- Witness for C7 (amended) at a concrete airborne state. -/
theorem C7_gravity_clamped_witness :
    kNone.jump = false ∧ wAir.player.vel.y = 0 ∧
    velYGrav kNone 1 wAir = -1.6 :=
  ⟨rfl, rfl, C7_gravity_clamped kNone wAir rfl rfl⟩

/-- Claim C7 counterexample: in that exact scenario the post-gravity vertical
velocity is -1.6, not the claimed -32. -/
theorem C7_counterexample : velYGrav kNone 1 wAir ≠ -32 := by
  have hnf : ¬ fires kNone 1 wAir := by simp [fires, kNone]
  unfold velYGrav
  rw [if_neg hnf]
  norm_num [wAir, gravity, dtClamped]

/- ### Claim C8 -/

theorem moveVector_fwd (q : Quat) : moveVector q kFwd = frontVector q := by
  unfold moveVector
  ext <;> simp [kFwd, vadd]

theorem targetSpeed_fwd (st : ℝ) : targetSpeed kFwd st = 9.5 := by
  have h1 : ¬ (kFwd.crouch = true) := by simp [kFwd]
  have h2 : ¬ canSprint kFwd st := by simp [canSprint, kFwd]
  unfold targetSpeed crouchFactor sprintFactor walkSpeed
  rw [if_neg h1, if_neg h2]
  norm_num

/-- Claim C8: the horizontal velocity follows the frame-rate-independent
exponential approach v' = target + (v - target)·exp(-rate·dt) componentwise,
with rate 8 under movement intent and rate 5.5 when decelerating to rest; and
from rest with only the forward flag held, delta = 0.016 and a non-degenerate
flattened look direction, the resulting horizontal speed is exactly
9.5·(1 - exp(-8·0.016)) and the velocity lies along the flattened forward
direction only. -/
theorem C8_exponential_damping (q : Quat) (k : Keys) (delta : ℝ) (w : World) :
    (isMoving q k →
      velXAfter q k delta w =
        (moveDir q k).x * targetSpeed k w.player.stamina +
          (w.player.vel.x - (moveDir q k).x * targetSpeed k w.player.stamina) *
            Real.exp (-(8 * dtClamped delta)) ∧
      velZAfter q k delta w =
        (moveDir q k).z * targetSpeed k w.player.stamina +
          (w.player.vel.z - (moveDir q k).z * targetSpeed k w.player.stamina) *
            Real.exp (-(8 * dtClamped delta))) ∧
    (¬ isMoving q k →
      velXAfter q k delta w =
        0 + (w.player.vel.x - 0) * Real.exp (-(5.5 * dtClamped delta)) ∧
      velZAfter q k delta w =
        0 + (w.player.vel.z - 0) * Real.exp (-(5.5 * dtClamped delta))) ∧
    (k = kFwd → delta = 0.016 → w.player.vel.x = 0 → w.player.vel.z = 0 →
      lengthSq (flatFront q) ≠ 0 →
      Real.sqrt (velXAfter q k delta w * velXAfter q k delta w +
          velZAfter q k delta w * velZAfter q k delta w) =
        9.5 * (1 - Real.exp (-(8 * 0.016))) ∧
      velXAfter q k delta w =
        9.5 * (1 - Real.exp (-(8 * 0.016))) * (frontVector q).x ∧
      velZAfter q k delta w =
        9.5 * (1 - Real.exp (-(8 * 0.016))) * (frontVector q).z) := by
  refine ⟨?_, ?_, ?_⟩
  · intro hm
    unfold velXAfter velZAfter
    rw [if_pos hm, if_pos hm, damp_exp_form, damp_exp_form]
    exact ⟨rfl, rfl⟩
  · intro hm
    unfold velXAfter velZAfter
    rw [if_neg hm, if_neg hm, damp_exp_form, damp_exp_form]
    exact ⟨rfl, rfl⟩
  · intro hk hdel hvx hvz hne
    subst hk
    subst hdel
    have hfs : lengthSq (frontVector q) = 1 := lengthSq_normalize hne
    have hMov : isMoving q kFwd := by
      unfold isMoving
      rw [moveVector_fwd, hfs]
      norm_num
    have hmd : moveDir q kFwd = frontVector q := by
      unfold moveDir
      rw [if_pos hMov, moveVector_fwd]
      exact normalize_of_lengthSq_one hfs
    have hdt : dtClamped 0.016 = 0.016 := by
      unfold dtClamped
      rw [min_eq_left]
      norm_num
    have hKnn : 0 ≤ 9.5 * (1 - Real.exp (-(8 * 0.016))) := by
      have h1 : Real.exp (-(8 * 0.016)) ≤ 1 := by
        rw [Real.exp_le_one_iff]
        norm_num
      nlinarith
    have hx : velXAfter q kFwd 0.016 w =
        9.5 * (1 - Real.exp (-(8 * 0.016))) * (frontVector q).x := by
      unfold velXAfter
      rw [if_pos hMov, hmd, targetSpeed_fwd, hdt]
      unfold damp
      rw [hvx]
      ring
    have hz : velZAfter q kFwd 0.016 w =
        9.5 * (1 - Real.exp (-(8 * 0.016))) * (frontVector q).z := by
      unfold velZAfter
      rw [if_pos hMov, hmd, targetSpeed_fwd, hdt]
      unfold damp
      rw [hvz]
      ring
    refine ⟨?_, hx, hz⟩
    rw [hx, hz]
    have hy0 : (frontVector q).y = 0 := by
      unfold frontVector
      rw [normalize_y]
      unfold flatFront
      ring
    have hxz : (frontVector q).x * (frontVector q).x +
        (frontVector q).z * (frontVector q).z = 1 := by
      have := hfs
      unfold lengthSq at this
      rw [hy0] at this
      linarith
    have hsum : 9.5 * (1 - Real.exp (-(8 * 0.016))) * (frontVector q).x *
          (9.5 * (1 - Real.exp (-(8 * 0.016))) * (frontVector q).x) +
        9.5 * (1 - Real.exp (-(8 * 0.016))) * (frontVector q).z *
          (9.5 * (1 - Real.exp (-(8 * 0.016))) * (frontVector q).z) =
        (9.5 * (1 - Real.exp (-(8 * 0.016)))) ^ 2 *
          ((frontVector q).x * (frontVector q).x +
            (frontVector q).z * (frontVector q).z) := by
      ring
    rw [hsum, hxz, mul_one]
    exact Real.sqrt_sq hKnn

/-- Witness for C8: the scenario instantiated with the identity camera
quaternion (flattened forward (0,0,-1)) from the standing state at rest. -/
theorem C8_exponential_damping_witness :
    lengthSq (flatFront qId) ≠ 0 ∧
    Real.sqrt (velXAfter qId kFwd 0.016 wStand * velXAfter qId kFwd 0.016 wStand +
        velZAfter qId kFwd 0.016 wStand * velZAfter qId kFwd 0.016 wStand) =
      9.5 * (1 - Real.exp (-(8 * 0.016))) := by
  have hne : lengthSq (flatFront qId) ≠ 0 := by
    norm_num [lengthSq, flatFront, applyQuaternion, qId]
  exact ⟨hne,
    ((C8_exponential_damping qId kFwd 0.016 wStand).2.2 rfl rfl rfl rfl hne).1⟩

/- ### Claim C9 -/

/-- Claim C9 (code defect): the position ref is created as (0, 0, 20), whose
squared length is 400 ≠ 0, so the spawn-resolve branch — which would set the
position to (0, terrainHeight(0,25) + 1.72, 25) — never fires; before any
integration the position stays (0,0,20), and its y component 0 is not the
terrain height plus standing eye height (on flat terrain 0 that would be
1.72). -/
theorem C9_spawn_not_resolved :
    lengthSq initWorld.player.pos ≠ 0 ∧
    resolveSpawn flatT initWorld.player.pos = initWorld.player.pos ∧
    initWorld.player.pos.y ≠ flatT 0 25 + playerHeight := by
  refine ⟨?_, resolveSpawn_init, ?_⟩
  · norm_num [lengthSq, initWorld]
  · norm_num [initWorld, flatT, playerHeight]

/- ### Claim C10 -/

/-- Claim C10: the per-frame update is deterministic — two runs from identical
prior worlds with identical elapsed time, input flags, camera quaternion,
controls-presence and lock flags, and the same pure terrain oracle and arena
half-size produce identical player state, camera position and published
metrics.  The embedding of the callback is a pure function of exactly these
inputs, mirroring that the code reads no other mutable state and uses no
randomness. -/
theorem C10_deterministic (t1 t2 : ℝ → ℝ → ℝ) (h1 h2 : ℝ)
    (cp1 cp2 l1 l2 : Bool) (q1 q2 : Quat) (k1 k2 : Keys) (d1 d2 : ℝ)
    (w1 w2 : World)
    (ht : t1 = t2) (hh : h1 = h2) (hcp : cp1 = cp2) (hl : l1 = l2)
    (hq : q1 = q2) (hk : k1 = k2) (hd : d1 = d2) (hw : w1 = w2) :
    frame t1 h1 cp1 l1 q1 k1 d1 w1 = frame t2 h2 cp2 l2 q2 k2 d2 w2 := by
  subst ht hh hcp hl hq hk hd hw
  rfl

/-- Witness for C10 at a concrete pair of identical runs. -/
theorem C10_deterministic_witness :
    frame flatT 100 true true qId kNone 0.016 wStand =
      frame flatT 100 true true qId kNone 0.016 wStand :=
  C10_deterministic flatT flatT 100 100 true true true true qId qId kNone
    kNone 0.016 0.016 wStand wStand rfl rfl rfl rfl rfl rfl rfl rfl

end FPS

end
